import Mathlib

/-!
Shallow embedding of the bookworm-buddies reading-tracker client.

Timestamps (`new Date().toISOString()` values / `Date.now()` values) are
modelled as natural numbers (milliseconds since the epoch); an event handler
that reads the clock several times within one invocation is given a single
`now` parameter, since all those reads happen within the same synchronous
handler.  Optional (`?:`) fields are `Option`s; a JavaScript `x || d`
fallback on such a field is `Option.getD` (the string/array/object values
stored in these fields are never falsy, so only `undefined` triggers the
fallback, with the documented exceptions where `0` or `""` can occur).
JavaScript `Map`s are modelled as association lists in insertion order
(`jsGet` / `jsSet` below mirror `Map.get` / `Map.set`).
-/

set_option maxHeartbeats 1000000
set_option linter.unreachableTactic false
set_option linter.unusedTactic false
set_option linter.unusedVariables false

/-- The union of the lifecycle status string literals that appear across the
two revisions of the code base: `want-to-read`/`reading`/`read` in
`src/src/components/BookCard.tsx`, and
`reading`/`finished`/`did-not-finish`/`re-read` in `src/unnamed/part_003`.
The handlers compare the status against specific literals, so they are
well-defined on the whole union. -/
inductive Status where
  | wantToRead
  | reading
  | read
  | finished
  | didNotFinish
  | reRead
deriving DecidableEq, Repr

/-- `Book` from `src/src/components/BookCard.tsx` (the `imageLinks` object is
flattened to its only field `thumbnail`; `averageRating` is a JS number used
only for display, modelled as a rational). -/
structure Book where
  id : String
  title : String
  authors : Option (List String) := none
  description : Option String := none
  thumbnail : Option String := none
  publishedDate : Option String := none
  averageRating : Option Rat := none
  pageCount : Option Nat := none
  categories : Option (List String) := none
deriving DecidableEq, Repr

/-- One element of `ReadingStatus.readingSessions`
(`src/src/components/BookCard.tsx`): `pagesRead` is computed as a plain
difference and may be negative, hence `Int`. -/
structure ReadingSession where
  date : Nat
  minutes : Nat
  pagesRead : Int
deriving DecidableEq, Repr

/-- `ReReadEntry` from `src/src/components/ReReadLog.tsx`. -/
structure ReReadEntry where
  id : String
  dateStarted : Option Nat := none
  dateCompleted : Option Nat := none
  rating : Option Nat := none
  notes : Option String := none
  readingTime : Option Nat := none
deriving DecidableEq, Repr

/-- `ReadingStatus`: the union of the fields of the two revisions of the
interface (`src/src/components/BookCard.tsx` and `src/unnamed/part_003`)
together with the `reReadDates` field used by
`src/src/components/ReReadLog.tsx`.  JavaScript objects are open records, so
a single wide record models every revision; fields a revision does not set
are simply `none`. -/
structure ReadingStatus where
  status : Status
  dateAdded : Nat
  dateStarted : Option Nat := none
  dateCompleted : Option Nat := none
  rating : Option Nat := none
  currentPage : Option Nat := none
  personalRating : Option Nat := none
  notes : Option String := none
  readingGoal : Option String := none
  readingSessions : Option (List ReadingSession) := none
  lastUpdated : Option Nat := none
  tags : Option (List String) := none
  reReadDates : Option (List ReReadEntry) := none
deriving DecidableEq, Repr

/-- `Map.get`: the value stored under the first (and, for a `Map`, only)
occurrence of the key. -/
def jsGet {κ α : Type} [DecidableEq κ] : List (κ × α) → κ → Option α
  | [], _ => none
  | p :: rest, k => if p.1 = k then some p.2 else jsGet rest k

/-- `Map.set`: replace the value under an existing key in place, otherwise
append the new pair at the end (JS `Map`s iterate in insertion order). -/
def jsSet {κ α : Type} [DecidableEq κ] : List (κ × α) → κ → α → List (κ × α)
  | [], k, v => [(k, v)]
  | p :: rest, k, v => if p.1 = k then (k, v) :: rest else p :: jsSet rest k v

/-- `String.prototype.trim()`: strip leading and trailing whitespace,
modelled structurally on the character list (so that it evaluates inside the
kernel). -/
def jsTrim (s : String) : String :=
  String.mk (((s.data.dropWhile Char.isWhitespace).reverse.dropWhile Char.isWhitespace).reverse)

namespace BookCardV1

/-- `handleStatusChange` from `src/src/components/BookCard.tsx` (the
`want-to-read`/`reading`/`read` revision; the identical handler also appears
in the BookDetailsModal of `src/unnamed/part_000`).  The optional
`readingStatus` prop is the `Option` argument; spreading an `undefined`
`readingStatus` yields the empty object, so every carried-over field is
`none` in that case.  `readingStatus?.dateAdded || now` falls back to the
current time exactly when the prop is absent (a produced `dateAdded` ISO
string is never empty), and `!readingStatus?.dateStarted` tests absence of
the optional timestamp. -/
def handleStatusChange (readingStatus : Option ReadingStatus) (newStatus : Status)
    (now : Nat) : ReadingStatus :=
  let upd : ReadingStatus :=
    { status := newStatus
      dateAdded := (readingStatus.map (·.dateAdded)).getD now
      dateStarted := readingStatus.bind (·.dateStarted)
      dateCompleted := readingStatus.bind (·.dateCompleted)
      rating := readingStatus.bind (·.rating)
      currentPage := readingStatus.bind (·.currentPage)
      personalRating := readingStatus.bind (·.personalRating)
      notes := readingStatus.bind (·.notes)
      readingGoal := readingStatus.bind (·.readingGoal)
      readingSessions := readingStatus.bind (·.readingSessions)
      lastUpdated := readingStatus.bind (·.lastUpdated)
      tags := readingStatus.bind (·.tags)
      reReadDates := readingStatus.bind (·.reReadDates) }
  let upd :=
    if newStatus = Status.reading ∧ (readingStatus.bind (·.dateStarted)).isNone then
      { upd with dateStarted := some now }
    else upd
  if newStatus = Status.read then
    let upd := { upd with dateCompleted := some now }
    if (readingStatus.bind (·.dateStarted)).isNone then
      { upd with dateStarted := some now }
    else upd
  else upd

end BookCardV1

namespace BookCardV2

/-- `handleStatusChange` from `src/unnamed/part_003` (the
`reading`/`finished`/`did-not-finish`/`re-read` revision).  Identical to
`BookCardV1.handleStatusChange` except that the terminal branch fires on
`finished` or `did-not-finish` instead of `read`. -/
def handleStatusChange (readingStatus : Option ReadingStatus) (newStatus : Status)
    (now : Nat) : ReadingStatus :=
  let upd : ReadingStatus :=
    { status := newStatus
      dateAdded := (readingStatus.map (·.dateAdded)).getD now
      dateStarted := readingStatus.bind (·.dateStarted)
      dateCompleted := readingStatus.bind (·.dateCompleted)
      rating := readingStatus.bind (·.rating)
      currentPage := readingStatus.bind (·.currentPage)
      personalRating := readingStatus.bind (·.personalRating)
      notes := readingStatus.bind (·.notes)
      readingGoal := readingStatus.bind (·.readingGoal)
      readingSessions := readingStatus.bind (·.readingSessions)
      lastUpdated := readingStatus.bind (·.lastUpdated)
      tags := readingStatus.bind (·.tags)
      reReadDates := readingStatus.bind (·.reReadDates) }
  let upd :=
    if newStatus = Status.reading ∧ (readingStatus.bind (·.dateStarted)).isNone then
      { upd with dateStarted := some now }
    else upd
  if newStatus = Status.finished ∨ newStatus = Status.didNotFinish then
    let upd := { upd with dateCompleted := some now }
    if (readingStatus.bind (·.dateStarted)).isNone then
      { upd with dateStarted := some now }
    else upd
  else upd

end BookCardV2

namespace ProgressEdit

/-- The session object pushed by `handleSave` in `src/unnamed/part_001` when
`minutesRead > 0`: `pagesRead: currentPage - (readingStatus.currentPage || 0)`
is a plain difference over the integers. -/
def newSession (rs : ReadingStatus) (currentPage minutesRead now : Nat) : ReadingSession :=
  { date := now
    minutes := minutesRead
    pagesRead := (currentPage : Int) - (rs.currentPage.getD 0 : Nat) }

/-- `handleSave` from `src/unnamed/part_001` (ProgressEditDialog), as the
value passed to `onSave`.  `totalPages = book.pageCount || 0`; the dialog
state `currentPage`, `personalRating`, `notes`, `readingGoal`, `minutesRead`
are the user-edited inputs (the page and minutes inputs are clamped to `≥ 0`
by the `onChange` handlers, hence `Nat`).  `notes.trim() || undefined` and
`readingGoal.trim() || undefined` drop the field when the trimmed string is
empty.  The auto-complete branch fires when `totalPages > 0 &&
currentPage >= totalPages && readingStatus.status !== 'read'` (in this
revision `read` is the completed lifecycle state). -/
def handleSave (book : Book) (rs : ReadingStatus) (currentPage personalRating : Nat)
    (notes readingGoal : String) (minutesRead now : Nat) : ReadingStatus :=
  let totalPages := book.pageCount.getD 0
  let upd := { rs with
    currentPage := some currentPage
    personalRating := if personalRating > 0 then some personalRating else none
    notes := if jsTrim notes = "" then none else some (jsTrim notes)
    readingGoal := if jsTrim readingGoal = "" then none else some (jsTrim readingGoal)
    lastUpdated := some now }
  let upd :=
    if minutesRead > 0 then
      let sessions := rs.readingSessions.getD [] ++ [newSession rs currentPage minutesRead now]
      { upd with readingSessions := some sessions }
    else upd
  if totalPages > 0 ∧ currentPage ≥ totalPages ∧ rs.status ≠ Status.read then
    { upd with status := Status.read, dateCompleted := some now }
  else upd

/-- The value of the *input* `readingStatus` record after `handleSave`
returns.  When `minutesRead > 0`, `handleSave` takes
`sessions = readingStatus.readingSessions || []` — the very array stored in
the input record when that field is present (a present-but-empty array is
truthy) — and calls `sessions.push(...)` on it, so the input record's
nested session list gains the new session in place; in every other case the
input record is left untouched. -/
def inputAfter (rs : ReadingStatus) (currentPage minutesRead now : Nat) : ReadingStatus :=
  match rs.readingSessions with
  | some l =>
    if minutesRead > 0 then
      { rs with readingSessions := some (l ++ [newSession rs currentPage minutesRead now]) }
    else rs
  | none => rs

end ProgressEdit

namespace ReReadLog

/-- `handleDeleteEntry` from `src/src/components/ReReadLog.tsx`
(lines 95-105): the remaining entries are
`reReadEntries.filter(entry => entry.id !== entryId)` where
`reReadEntries = status.reReadDates || []`, and the resulting lifecycle
status is `updatedEntries.length > 0 ? 're-read' : status.status` — when the
list empties, the handler writes back the *current* `status.status`; no
pre-re-read value is stored anywhere in `ReadingStatus`. -/
def handleDeleteEntry (status : ReadingStatus) (entryId : String) : ReadingStatus :=
  let updatedEntries := (status.reReadDates.getD []).filter (fun entry => entry.id ≠ entryId)
  { status with
    reReadDates := some updatedEntries
    status := if updatedEntries.length > 0 then Status.reRead else status.status }

end ReReadLog

/-- A library store entry: the `{ book, status }` value of the
`Map<string, { book: Book; status: ReadingStatus }>` state in
`src/src/pages/Index.tsx`. -/
structure LibEntry where
  book : Book
  status : ReadingStatus
deriving DecidableEq, Repr

namespace IndexPage

/-- The `libraryBooks` map of `src/src/pages/Index.tsx`, in insertion order. -/
abbrev Library := List (String × LibEntry)

/-- The fresh `ReadingStatus` built by `handleAddToLibrary` in
`src/src/pages/Index.tsx`: `{ status: 'reading', dateAdded: now }` and no
other field. -/
def freshStatus (now : Nat) : ReadingStatus :=
  { status := Status.reading, dateAdded := now }

/-- `handleAddToLibrary` from `src/src/pages/Index.tsx` (lines 33-41):
`prev.set(book.id, { book, status })` with the fresh status — an existing
entry under the same identifier is overwritten wholesale. -/
def handleAddToLibrary (lib : Library) (book : Book) (now : Nat) : Library :=
  jsSet lib book.id { book := book, status := freshStatus now }

/-- `handleStatusChange` from `src/src/pages/Index.tsx` (lines 43-51): look
up the entry; if it exists, store it back with the new status
(`{ ...existing, status }`); if `prev.get(bookId)` is `undefined`, return
`prev` unchanged — no toast or other error path exists in this handler. -/
def handleStatusChange (lib : Library) (bookId : String) (status : ReadingStatus) : Library :=
  match jsGet lib bookId with
  | some existing => jsSet lib bookId { existing with status := status }
  | none => lib

end IndexPage

/-- A `toast(...)` call: `title`, `description`, and whether
`variant: "destructive"` was passed. -/
structure Toast where
  title : String
  description : String
  destructive : Bool
deriving DecidableEq, Repr

namespace BookSearch

/-- The `volumeInfo` part of a Google Books API item
(`GoogleBooksResponse` in `src/src/components/BookSearch.tsx`). -/
structure VolumeInfo where
  title : String
  authors : Option (List String) := none
  description : Option String := none
  thumbnail : Option String := none
  publishedDate : Option String := none
  averageRating : Option Rat := none
  pageCount : Option Nat := none
  categories : Option (List String) := none
deriving DecidableEq, Repr

/-- One item of a Google Books API response. -/
structure RawItem where
  id : String
  volumeInfo : VolumeInfo
deriving DecidableEq, Repr

/-- The `data.items?.map(item => ({...}))` projection in `searchBooks`. -/
def toBook (item : RawItem) : Book :=
  { id := item.id
    title := item.volumeInfo.title
    authors := item.volumeInfo.authors
    description := item.volumeInfo.description
    thumbnail := item.volumeInfo.thumbnail
    publishedDate := item.volumeInfo.publishedDate
    averageRating := item.volumeInfo.averageRating
    pageCount := item.volumeInfo.pageCount
    categories := item.volumeInfo.categories }

/-- The component state touched by `searchBooks`
(`src/src/components/BookSearch.tsx`). -/
structure SearchState where
  books : List Book
  isLoading : Bool
  hasSearched : Bool
deriving DecidableEq, Repr

/-- The outcome of the `fetch` to the catalog: a transport failure (the
`fetch`/`json` promise rejects), or an HTTP response with its `ok` flag and
the optional `items` array of the parsed body. -/
inductive SearchOutcome where
  | transportError
  | http (ok : Bool) (items : Option (List RawItem))
deriving DecidableEq, Repr

/-- `searchBooks` from `src/src/components/BookSearch.tsx` (lines 46-103),
as a function of the current state and the request outcome, returning the
final state and the toasts raised.  An empty-after-trim query returns before
any side effect with a destructive "Search Required" toast.  Otherwise
`isLoading`/`hasSearched` are set; a non-ok response throws and, like a
transport error, is caught: a destructive "Search Error" toast is raised and
`setBooks([])` clears the result list.  On success `setBooks(searchResults)`
stores the mapped items (an absent `items` array maps to `[]`), with an
informational "No Results" toast when the list is empty; `finally` resets
`isLoading`. -/
def searchBooks (st : SearchState) (searchQuery : String) (outcome : SearchOutcome) :
    SearchState × List Toast :=
  if jsTrim searchQuery = "" then
    (st, [{ title := "Search Required",
            description := "Please enter a book title, author, or keyword to search.",
            destructive := true }])
  else
    let st := { st with isLoading := true, hasSearched := true }
    let failed : SearchState × List Toast :=
      ({ st with books := [], isLoading := false },
       [{ title := "Search Error",
          description := "Failed to search books. Please try again.",
          destructive := true }])
    match outcome with
    | SearchOutcome.transportError => failed
    | SearchOutcome.http ok items =>
      if ok = false then failed
      else
        let searchResults := (items.map (fun l => l.map toBook)).getD []
        ({ st with books := searchResults, isLoading := false },
         if searchResults.length = 0 then
           [{ title := "No Results",
              description := "No books found for your search. Try different keywords.",
              destructive := false }]
         else [])

end BookSearch

namespace Heatmap

/-- `new Date(x).toDateString()` as a calendar-day key: the timestamp's day
number (all timestamps in one local timezone, so two timestamps produce the
same `toDateString()` exactly when they fall in the same day bucket). -/
def toDateKey (t : Nat) : Nat := t / 86400000

/-- `DayActivity` from `src/src/components/ReadingHeatmap.tsx`. -/
structure DayActivity where
  date : Nat
  intensity : Nat
  sessions : Nat
  books : List String
deriving DecidableEq, Repr

/-- The default object used when `activityMap.get(dateKey)` is undefined. -/
def emptyDay (k : Nat) : DayActivity :=
  { date := k, intensity := 0, sessions := 0, books := [] }

/-- `if (!existing.books.includes(book.title)) existing.books.push(book.title)` -/
def pushTitle (books : List String) (title : String) : List String :=
  if title ∈ books then books else books ++ [title]

/-- `Math.min(Math.floor(session.minutes / 15), 4)` -/
def sessionBucket (s : ReadingSession) : Nat := min (s.minutes / 15) 4

/-- Processing of one reading session in the `heatmapData` memo
(`src/src/components/ReadingHeatmap.tsx` lines 28-47): bump the session
count, record the title, and raise the intensity to the session's time
bucket. -/
def addSession (m : List (Nat × DayActivity)) (title : String) (s : ReadingSession) :
    List (Nat × DayActivity) :=
  let k := toDateKey s.date
  let ex := (jsGet m k).getD (emptyDay k)
  jsSet m k { ex with
    sessions := ex.sessions + 1
    books := pushTitle ex.books title
    intensity := max ex.intensity (sessionBucket s) }

/-- Processing of `status.dateCompleted` (lines 51-66): raise the day's
intensity to at least 3 and record the title; the session count is not
touched. -/
def addCompletion (m : List (Nat × DayActivity)) (title : String) (dateCompleted : Option Nat) :
    List (Nat × DayActivity) :=
  match dateCompleted with
  | none => m
  | some t =>
    let k := toDateKey t
    let ex := (jsGet m k).getD (emptyDay k)
    jsSet m k { ex with
      intensity := max ex.intensity 3
      books := pushTitle ex.books title }

/-- Processing of one `reReadDates` entry (lines 69-88): for an entry with a
completion date, raise that day's intensity to at least 4 and record the
title. -/
def addReread (m : List (Nat × DayActivity)) (title : String) (r : ReReadEntry) :
    List (Nat × DayActivity) :=
  match r.dateCompleted with
  | none => m
  | some t =>
    let k := toDateKey t
    let ex := (jsGet m k).getD (emptyDay k)
    jsSet m k { ex with
      intensity := max ex.intensity 4
      books := pushTitle ex.books title }

/-- The body of the `libraryBooks.values().forEach` in the `heatmapData`
memo: sessions, then the completion date, then the re-read dates of one
library entry. -/
def processEntry (m : List (Nat × DayActivity)) (e : Book × ReadingStatus) :
    List (Nat × DayActivity) :=
  let m := (e.2.readingSessions.getD []).foldl (fun m s => addSession m e.1.title s) m
  let m := addCompletion m e.1.title e.2.dateCompleted
  (e.2.reReadDates.getD []).foldl (fun m r => addReread m e.1.title r) m

/-- The `heatmapData` activity map of `src/src/components/ReadingHeatmap.tsx`
(lines 22-92), built from the library entries in iteration order. -/
def heatmapData (lib : List (Book × ReadingStatus)) : List (Nat × DayActivity) :=
  lib.foldl processEntry []

/-- The intensity the heatmap displays for day `d`: the stored activity's
intensity, or 0 when the day has no record (the component renders an absent
record exactly like intensity 0). -/
def dayIntensity (m : List (Nat × DayActivity)) (d : Nat) : Nat :=
  ((jsGet m d).map (·.intensity)).getD 0

/-- Modelled from the spec (not a source translation — the comparison side of
the refinement): all sessions of the library falling on day `d`. -/
def daySessions (lib : List (Book × ReadingStatus)) (d : Nat) : List ReadingSession :=
  (lib.map (fun e => (e.2.readingSessions.getD []).filter
    (fun s => decide (toDateKey s.date = d)))).flatten

/-- Whether an optional completion timestamp falls on day `d`. -/
def onDay (dc : Option Nat) (d : Nat) : Bool :=
  match dc with
  | some t => decide (toDateKey t = d)
  | none => false

/-- Modelled from the spec: the day is a completion date of some book. -/
def hasCompletionOn (lib : List (Book × ReadingStatus)) (d : Nat) : Bool :=
  lib.any (fun e => onDay e.2.dateCompleted d)

/-- Modelled from the spec: the day is a re-read-completion date of some
book. -/
def hasRereadOn (lib : List (Book × ReadingStatus)) (d : Nat) : Bool :=
  lib.any (fun e => (e.2.reReadDates.getD []).any (fun r => onDay r.dateCompleted d))

/-- Modelled from the spec of the heatmap aggregation: "intensity is the
maximum of: bucketed session time (session minutes ÷ 15, floored, capped at
4), 3 if the day is a completion date of any book, 4 if the day is a
re-read-completion date of any book". -/
def specDayIntensity (lib : List (Book × ReadingStatus)) (d : Nat) : Nat :=
  max (((daySessions lib d).map sessionBucket).foldr max 0)
    (max (if hasCompletionOn lib d then 3 else 0) (if hasRereadOn lib d then 4 else 0))

/-- The contribution of a single library entry to the intensity of day `d`. -/
def entryIntensity (e : Book × ReadingStatus) (d : Nat) : Nat :=
  max ((((e.2.readingSessions.getD []).filter
      (fun s => decide (toDateKey s.date = d))).map sessionBucket).foldr max 0)
    (max (if onDay e.2.dateCompleted d then 3 else 0)
      (if (e.2.reReadDates.getD []).any (fun r => onDay r.dateCompleted d) then 4 else 0))

end Heatmap

/-- Concrete book used in scenario inputs: "Alpha". -/
def bookA : Book := { id := "a", title := "Alpha" }

/-- Concrete book used in scenario inputs: "Beta". -/
def bookB : Book := { id := "b", title := "Beta" }

/-- A status holding one 10-minute session at timestamp 0 (day key 0). -/
def statusA : ReadingStatus :=
  { status := Status.reading, dateAdded := 0
    readingSessions := some [{ date := 0, minutes := 10, pagesRead := 0 }] }

/-- A status holding one 20-minute session at timestamp 1000 (day key 0). -/
def statusB : ReadingStatus :=
  { status := Status.reading, dateAdded := 0
    readingSessions := some [{ date := 1000, minutes := 20, pagesRead := 0 }] }

/-- The spec scenario library: two sessions on the same calendar day, 10 and
20 minutes, for two different books. -/
def scenarioLib : List (Book × ReadingStatus) := [(bookA, statusA), (bookB, statusB)]

/-- A one-entry library store holding `bookA` under key "a". -/
def demoLib : IndexPage.Library :=
  [("a", { book := bookA, status := IndexPage.freshStatus 0 })]

/-- A prior search-result book. -/
def priorBook : Book := { id := "prior", title := "Prior Result" }

/-- A search state that already displays one result. -/
def priorState : BookSearch.SearchState :=
  { books := [priorBook], isLoading := false, hasSearched := true }

/-- The destructive toast raised by the catch block of `searchBooks`. -/
def searchErrorToast : Toast :=
  { title := "Search Error"
    description := "Failed to search books. Please try again."
    destructive := true }

/-- A book whose page count is known and equal to 0. -/
def zeroPageBook : Book := { id := "z", title := "Zero Pages", pageCount := some 0 }

/-- A freshly added status in the `reading` state. -/
def readingStatus0 : ReadingStatus := { status := Status.reading, dateAdded := 0 }

/-- A status at page 10 with one logged session. -/
def sessionedStatus : ReadingStatus :=
  { status := Status.reading, dateAdded := 0, currentPage := some 10
    readingSessions := some [{ date := 0, minutes := 30, pagesRead := 10 }] }

/-- A status whose `dateStarted` is already set (to 4). -/
def startedStatus : ReadingStatus :=
  { status := Status.reading, dateAdded := 0, dateStarted := some 4 }

/-- A 200-page book. -/
def pagedBook : Book := { id := "p", title := "Paged", pageCount := some 200 }

theorem jsGet_jsSet_self {κ α : Type} [DecidableEq κ] (m : List (κ × α)) (k : κ) (v : α) :
    jsGet (jsSet m k v) k = some v := by
  induction m with
  | nil => simp [jsGet, jsSet]
  | cons p rest ih =>
    by_cases h : p.1 = k
    · simp [jsGet, jsSet, h]
    · simp [jsGet, jsSet, h, ih]

theorem jsGet_jsSet_other {κ α : Type} [DecidableEq κ] (m : List (κ × α)) (k d : κ) (v : α)
    (hne : d ≠ k) : jsGet (jsSet m k v) d = jsGet m d := by
  have hkd : ¬ k = d := fun hh => hne hh.symm
  induction m with
  | nil => simp [jsGet, jsSet, hkd]
  | cons p rest ih =>
    by_cases h : p.1 = k
    · have hpd : ¬ p.1 = d := by rw [h]; exact hkd
      simp [jsGet, jsSet, h, hkd, hpd]
    · by_cases h2 : p.1 = d
      · simp [jsGet, jsSet, h, h2, hne]
      · simp [jsGet, jsSet, h, h2, ih]

namespace Heatmap

theorem dayIntensity_jsSet (m : List (Nat × DayActivity)) (k d : Nat) (v : DayActivity) :
    dayIntensity (jsSet m k v) d = if d = k then v.intensity else dayIntensity m d := by
  by_cases h : d = k
  · subst h; simp [dayIntensity, jsGet_jsSet_self]
  · simp [dayIntensity, jsGet_jsSet_other m k d v h, h]

theorem getD_emptyDay_intensity (m : List (Nat × DayActivity)) (k : Nat) :
    ((jsGet m k).getD (emptyDay k)).intensity = dayIntensity m k := by
  cases h : jsGet m k <;> simp [dayIntensity, h, emptyDay]

theorem dayIntensity_addSession (m : List (Nat × DayActivity)) (title : String)
    (s : ReadingSession) (d : Nat) :
    dayIntensity (addSession m title s) d =
      if d = toDateKey s.date then max (dayIntensity m d) (sessionBucket s)
      else dayIntensity m d := by
  unfold addSession
  rw [dayIntensity_jsSet]
  by_cases h : d = toDateKey s.date <;> simp [h, getD_emptyDay_intensity]

theorem dayIntensity_addCompletion (m : List (Nat × DayActivity)) (title : String)
    (dc : Option Nat) (d : Nat) :
    dayIntensity (addCompletion m title dc) d =
      max (dayIntensity m d) (if onDay dc d then 3 else 0) := by
  cases dc with
  | none => simp [addCompletion, onDay]
  | some t =>
    unfold addCompletion
    rw [dayIntensity_jsSet]
    by_cases h : d = toDateKey t
    · subst h
      simp [onDay, getD_emptyDay_intensity, Nat.max_comm]
    · have : ¬ toDateKey t = d := fun hh => h hh.symm
      simp [onDay, h, this]

theorem dayIntensity_addReread (m : List (Nat × DayActivity)) (title : String)
    (r : ReReadEntry) (d : Nat) :
    dayIntensity (addReread m title r) d =
      max (dayIntensity m d) (if onDay r.dateCompleted d then 4 else 0) := by
  cases hr : r.dateCompleted with
  | none => simp [addReread, hr, onDay]
  | some t =>
    unfold addReread
    rw [hr, dayIntensity_jsSet]
    by_cases h : d = toDateKey t
    · subst h
      simp [onDay, hr, getD_emptyDay_intensity, Nat.max_comm]
    · have : ¬ toDateKey t = d := fun hh => h hh.symm
      simp [onDay, hr, h, this]

theorem dayIntensity_sessions_foldl (ss : List ReadingSession) (m : List (Nat × DayActivity))
    (title : String) (d : Nat) :
    dayIntensity (ss.foldl (fun m s => addSession m title s) m) d =
      max (dayIntensity m d)
        (((ss.filter (fun s => decide (toDateKey s.date = d))).map sessionBucket).foldr max 0) := by
  induction ss generalizing m with
  | nil => simp
  | cons s ss ih =>
    rw [List.foldl_cons, ih, dayIntensity_addSession]
    by_cases h : d = toDateKey s.date
    · subst h
      rw [if_pos rfl]
      simp [List.filter_cons]
      omega
    · have hs : ¬ toDateKey s.date = d := fun hh => h hh.symm
      rw [if_neg h]
      simp [List.filter_cons, hs]

theorem dayIntensity_rereads_foldl (rds : List ReReadEntry) (m : List (Nat × DayActivity))
    (title : String) (d : Nat) :
    dayIntensity (rds.foldl (fun m r => addReread m title r) m) d =
      max (dayIntensity m d) (if rds.any (fun r => onDay r.dateCompleted d) then 4 else 0) := by
  induction rds generalizing m with
  | nil => simp
  | cons r rds ih =>
    rw [List.foldl_cons, ih, dayIntensity_addReread]
    cases h1 : onDay r.dateCompleted d <;>
      cases h2 : rds.any (fun r => onDay r.dateCompleted d) <;>
        simp [h1, h2] <;> omega

theorem dayIntensity_processEntry (m : List (Nat × DayActivity)) (e : Book × ReadingStatus)
    (d : Nat) :
    dayIntensity (processEntry m e) d = max (dayIntensity m d) (entryIntensity e d) := by
  unfold processEntry entryIntensity
  rw [dayIntensity_rereads_foldl, dayIntensity_addCompletion, dayIntensity_sessions_foldl]
  omega

theorem dayIntensity_foldl (lib : List (Book × ReadingStatus)) (m : List (Nat × DayActivity))
    (d : Nat) :
    dayIntensity (lib.foldl processEntry m) d =
      max (dayIntensity m d) (lib.foldr (fun e acc => max (entryIntensity e d) acc) 0) := by
  induction lib generalizing m with
  | nil => simp
  | cons e lib ih =>
    rw [List.foldl_cons, ih, dayIntensity_processEntry, List.foldr_cons]
    omega

theorem foldr_max_append (l1 l2 : List Nat) :
    (l1 ++ l2).foldr max 0 = max (l1.foldr max 0) (l2.foldr max 0) := by
  induction l1 with
  | nil => simp
  | cons a l1 ih =>
    simp only [List.cons_append, List.foldr_cons, ih]
    omega

theorem if_or_max (a b : Bool) (n : Nat) :
    (if (a || b) = true then n else 0) =
      max (if a = true then n else 0) (if b = true then n else 0) := by
  cases a <;> cases b <;> simp

theorem specDayIntensity_eq_foldr (lib : List (Book × ReadingStatus)) (d : Nat) :
    specDayIntensity lib d = lib.foldr (fun e acc => max (entryIntensity e d) acc) 0 := by
  induction lib with
  | nil => simp [specDayIntensity, daySessions, hasCompletionOn, hasRereadOn]
  | cons e lib ih =>
    rw [List.foldr_cons, ← ih]
    simp only [specDayIntensity, daySessions, hasCompletionOn, hasRereadOn, List.map_cons,
      List.flatten_cons, List.any_cons, List.map_append, foldr_max_append, entryIntensity]
    rw [if_or_max, if_or_max]
    omega

/-- The whole-map correctness of the heatmap intensity against the spec
formula. -/
theorem dayIntensity_heatmapData (lib : List (Book × ReadingStatus)) (d : Nat) :
    dayIntensity (heatmapData lib) d = specDayIntensity lib d := by
  rw [heatmapData, dayIntensity_foldl, specDayIntensity_eq_foldr]
  simp [dayIntensity, jsGet]

end Heatmap

/-- C1: the claim says that when deleting a re-read entry empties the
re-read list, the lifecycle status reverts to its pre-re-read (non-re-read)
value.  The code (`handleDeleteEntry`, ReReadLog.tsx lines 95-105) instead
writes back the input's *current* status — and a status holding re-read
entries is in the `re-read` state (`handleAddReRead` forces it) — so
deleting the only entry leaves the status `re-read` with an empty list: the
pre-re-read value is not stored anywhere and cannot be restored.  This
theorem evaluates the handler at that failing input. -/
theorem C1_deleteOnlyRereadEntry_keepsRereadStatus :
    (ReReadLog.handleDeleteEntry
        { status := Status.reRead, dateAdded := 0
          reReadDates := some [{ id := "1", dateCompleted := some 5 }] } "1").status =
      Status.reRead ∧
    (ReReadLog.handleDeleteEntry
        { status := Status.reRead, dateAdded := 0
          reReadDates := some [{ id := "1", dateCompleted := some 5 }] } "1").reReadDates =
      some [] := by
  constructor <;> rfl

/-- C2 counterexample: with a non-empty previously displayed result list, a
transport failure does not leave the prior results untouched — `searchBooks`
clears the list to `[]` in its catch block. -/
theorem C2_searchFailure_counterexample :
    (BookSearch.searchBooks priorState "harry" BookSearch.SearchOutcome.transportError).1.books
        = [] ∧
    priorState.books = [priorBook] := by
  constructor <;> rfl

/-- C2 amended: a failed search (transport error or non-2xx response) raises
the destructive "Search Error" toast and resets the displayed result list to
empty — prior results are discarded, not preserved. -/
theorem C2_searchFailure_clearsResults (st : BookSearch.SearchState) (q : String)
    (items : Option (List BookSearch.RawItem)) (hq : jsTrim q ≠ "") :
    ((BookSearch.searchBooks st q BookSearch.SearchOutcome.transportError).1.books = [] ∧
      (BookSearch.searchBooks st q BookSearch.SearchOutcome.transportError).2 =
        [searchErrorToast]) ∧
    ((BookSearch.searchBooks st q (BookSearch.SearchOutcome.http false items)).1.books = [] ∧
      (BookSearch.searchBooks st q (BookSearch.SearchOutcome.http false items)).2 =
        [searchErrorToast]) := by
  unfold BookSearch.searchBooks
  rw [if_neg hq, if_neg hq]
  simp [searchErrorToast]

/-- C2 witness: the amended theorem applied at a concrete failing search over
a concrete prior state. -/
theorem C2_searchFailure_clearsResults_witness :
    ((BookSearch.searchBooks priorState "harry" BookSearch.SearchOutcome.transportError).1.books
        = [] ∧
      (BookSearch.searchBooks priorState "harry" BookSearch.SearchOutcome.transportError).2 =
        [searchErrorToast]) ∧
    ((BookSearch.searchBooks priorState "harry" (BookSearch.SearchOutcome.http false none)).1.books
        = [] ∧
      (BookSearch.searchBooks priorState "harry" (BookSearch.SearchOutcome.http false none)).2 =
        [searchErrorToast]) :=
  C2_searchFailure_clearsResults priorState "harry" none (by decide)

/-- C3 counterexample: the claim quantifies over every book "whose pageCount
is known", but for a known page count of 0 (`pageCount: 0`, falsy in JS, and
`totalPages > 0` fails) a progress update with P = 5 ≥ 0 on a
not-yet-completed status does not complete the book and leaves
`dateCompleted` unset. -/
theorem C3_zeroPageCount_counterexample :
    zeroPageBook.pageCount = some 0 ∧
    readingStatus0.status ≠ Status.read ∧
    readingStatus0.status ≠ Status.finished ∧
    readingStatus0.status ≠ Status.didNotFinish ∧
    (ProgressEdit.handleSave zeroPageBook readingStatus0 5 0 "" "" 0 99).status =
      Status.reading ∧
    (ProgressEdit.handleSave zeroPageBook readingStatus0 5 0 "" "" 0 99).dateCompleted =
      none := by
  refine ⟨rfl, ?_, ?_, ?_, rfl, rfl⟩ <;> decide

/-- C3 amended: for a book whose page count is known *and positive*, saving
progress with a target page P ≥ pageCount while the status is not already
the completed state (`read` in this revision) yields the completed status
and sets `dateCompleted` to the current time. -/
theorem C3_progressReachingPageCount_completes (book : Book) (rs : ReadingStatus)
    (cp pr : Nat) (notes goal : String) (m now c : Nat)
    (hc : book.pageCount = some c) (hpos : 0 < c) (hge : c ≤ cp)
    (hs : rs.status ≠ Status.read) :
    (ProgressEdit.handleSave book rs cp pr notes goal m now).status = Status.read ∧
    (ProgressEdit.handleSave book rs cp pr notes goal m now).dateCompleted = some now := by
  unfold ProgressEdit.handleSave
  rw [hc]
  simp only [Option.getD_some]
  rw [if_pos ⟨hpos, hge, hs⟩]
  constructor <;> rfl

/-- C3 witness: the amended theorem at a concrete 200-page book, target page
200, status `reading`. -/
theorem C3_progressReachingPageCount_completes_witness :
    (ProgressEdit.handleSave pagedBook readingStatus0 200 0 "" "" 20 77).status =
      Status.read ∧
    (ProgressEdit.handleSave pagedBook readingStatus0 200 0 "" "" 20 77).dateCompleted =
      some 77 :=
  C3_progressReachingPageCount_completes pagedBook readingStatus0 200 0 "" "" 20 77 200
    rfl (by decide) (by decide) (by decide)

/-- C4 counterexample: the progress-update operation is not copy-on-write on
the nested session list.  When session minutes are logged, `handleSave`
executes `sessions.push(...)` on the array obtained from
`readingStatus.readingSessions`, mutating the input record in place:
evaluated at a concrete status with one stored session and 15 logged
minutes, the input record after the call differs from its value before the
call — its session list has gained the new session. -/
theorem C4_inputMutated_counterexample :
    ProgressEdit.inputAfter sessionedStatus 20 15 1000 ≠ sessionedStatus ∧
    (ProgressEdit.inputAfter sessionedStatus 20 15 1000).readingSessions =
      some [{ date := 0, minutes := 30, pagesRead := 10 },
            { date := 1000, minutes := 15, pagesRead := 10 }] ∧
    sessionedStatus.readingSessions =
      some [{ date := 0, minutes := 30, pagesRead := 10 }] := by
  refine ⟨?_, rfl, rfl⟩
  decide

/-- C4 amended: the status-transition operation returns a new ReadingStatus
carrying every field other than `status`, `dateAdded`, `dateStarted`,
`dateCompleted` over unchanged; the progress-update operation returns a new
record carrying `dateAdded`, `dateStarted`, `rating`, `tags`, `reReadDates`
over unchanged and leaves the input untouched when no session minutes are
logged — but when minutes are logged and the input already holds a session
list, that list is mutated in place: the new session is appended to the
input's own list. -/
theorem C4_copyOnWrite_except_sessionPush :
    (∀ (rs : ReadingStatus) (t : Status) (now : Nat),
      (BookCardV2.handleStatusChange (some rs) t now).rating = rs.rating ∧
      (BookCardV2.handleStatusChange (some rs) t now).currentPage = rs.currentPage ∧
      (BookCardV2.handleStatusChange (some rs) t now).personalRating = rs.personalRating ∧
      (BookCardV2.handleStatusChange (some rs) t now).notes = rs.notes ∧
      (BookCardV2.handleStatusChange (some rs) t now).readingGoal = rs.readingGoal ∧
      (BookCardV2.handleStatusChange (some rs) t now).readingSessions = rs.readingSessions ∧
      (BookCardV2.handleStatusChange (some rs) t now).lastUpdated = rs.lastUpdated ∧
      (BookCardV2.handleStatusChange (some rs) t now).tags = rs.tags ∧
      (BookCardV2.handleStatusChange (some rs) t now).reReadDates = rs.reReadDates) ∧
    (∀ (rs : ReadingStatus) (cp now : Nat), ProgressEdit.inputAfter rs cp 0 now = rs) ∧
    (∀ (rs : ReadingStatus) (l : List ReadingSession) (cp m now : Nat),
      ProgressEdit.inputAfter { rs with readingSessions := some l } cp (m + 1) now =
        { rs with readingSessions := some (l ++
            [ProgressEdit.newSession { rs with readingSessions := some l } cp (m + 1) now]) }) ∧
    (∀ (book : Book) (rs : ReadingStatus) (cp pr : Nat) (n g : String) (m now : Nat),
      (ProgressEdit.handleSave book rs cp pr n g m now).dateAdded = rs.dateAdded ∧
      (ProgressEdit.handleSave book rs cp pr n g m now).dateStarted = rs.dateStarted ∧
      (ProgressEdit.handleSave book rs cp pr n g m now).rating = rs.rating ∧
      (ProgressEdit.handleSave book rs cp pr n g m now).tags = rs.tags ∧
      (ProgressEdit.handleSave book rs cp pr n g m now).reReadDates = rs.reReadDates) := by
  refine ⟨?_, ?_, ?_, ?_⟩
  · intro rs t now
    unfold BookCardV2.handleStatusChange
    split_ifs <;> simp
  · intro rs cp now
    unfold ProgressEdit.inputAfter
    cases h : rs.readingSessions <;> simp
  · intro rs l cp m now
    simp [ProgressEdit.inputAfter]
  · intro book rs cp pr n g m now
    unfold ProgressEdit.handleSave
    split_ifs <;>
      simp [apply_ite ReadingStatus.dateAdded, apply_ite ReadingStatus.dateStarted,
        apply_ite ReadingStatus.rating, apply_ite ReadingStatus.tags,
        apply_ite ReadingStatus.reReadDates]

/-- C5: transitioning a status whose `dateStarted` is unset into a terminal
state — `finished` or `did-not-finish` in the current revision, or the
legacy `read` — sets both `dateStarted` and `dateCompleted` (both to the
handler's current time, so dateStarted ≤ dateCompleted). -/
theorem C5_terminalTransition_backfillsDates (s : ReadingStatus) (now : Nat)
    (hs : s.dateStarted = none) :
    ((BookCardV2.handleStatusChange (some s) Status.finished now).dateStarted = some now ∧
      (BookCardV2.handleStatusChange (some s) Status.finished now).dateCompleted = some now ∧
      ((BookCardV2.handleStatusChange (some s) Status.finished now).dateStarted.getD 0 ≤
        (BookCardV2.handleStatusChange (some s) Status.finished now).dateCompleted.getD 0)) ∧
    ((BookCardV2.handleStatusChange (some s) Status.didNotFinish now).dateStarted = some now ∧
      (BookCardV2.handleStatusChange (some s) Status.didNotFinish now).dateCompleted = some now ∧
      ((BookCardV2.handleStatusChange (some s) Status.didNotFinish now).dateStarted.getD 0 ≤
        (BookCardV2.handleStatusChange (some s) Status.didNotFinish now).dateCompleted.getD 0)) ∧
    ((BookCardV1.handleStatusChange (some s) Status.read now).dateStarted = some now ∧
      (BookCardV1.handleStatusChange (some s) Status.read now).dateCompleted = some now ∧
      ((BookCardV1.handleStatusChange (some s) Status.read now).dateStarted.getD 0 ≤
        (BookCardV1.handleStatusChange (some s) Status.read now).dateCompleted.getD 0)) := by
  simp [BookCardV2.handleStatusChange, BookCardV1.handleStatusChange, hs]

/-- C5 witness: the theorem at a concrete never-started status and time 7. -/
theorem C5_terminalTransition_backfillsDates_witness :
    ((BookCardV2.handleStatusChange (some readingStatus0) Status.finished 7).dateStarted =
        some 7 ∧
      (BookCardV2.handleStatusChange (some readingStatus0) Status.finished 7).dateCompleted =
        some 7 ∧
      ((BookCardV2.handleStatusChange (some readingStatus0) Status.finished 7).dateStarted.getD 0 ≤
        (BookCardV2.handleStatusChange (some readingStatus0) Status.finished 7).dateCompleted.getD 0)) ∧
    ((BookCardV2.handleStatusChange (some readingStatus0) Status.didNotFinish 7).dateStarted =
        some 7 ∧
      (BookCardV2.handleStatusChange (some readingStatus0) Status.didNotFinish 7).dateCompleted =
        some 7 ∧
      ((BookCardV2.handleStatusChange (some readingStatus0) Status.didNotFinish 7).dateStarted.getD 0 ≤
        (BookCardV2.handleStatusChange (some readingStatus0) Status.didNotFinish 7).dateCompleted.getD 0)) ∧
    ((BookCardV1.handleStatusChange (some readingStatus0) Status.read 7).dateStarted = some 7 ∧
      (BookCardV1.handleStatusChange (some readingStatus0) Status.read 7).dateCompleted =
        some 7 ∧
      ((BookCardV1.handleStatusChange (some readingStatus0) Status.read 7).dateStarted.getD 0 ≤
        (BookCardV1.handleStatusChange (some readingStatus0) Status.read 7).dateCompleted.getD 0)) :=
  C5_terminalTransition_backfillsDates readingStatus0 7 rfl

/-- C6: for every existing ReadingStatus (whose `dateAdded` is always a set,
non-optional field) and every requested target status, both revisions of the
status-transition handler preserve `dateAdded` unchanged; `dateAdded` is set
to the current time exactly when no prior status exists. -/
theorem C6_dateAdded_invariant :
    (∀ (s : ReadingStatus) (t : Status) (now : Nat),
      (BookCardV2.handleStatusChange (some s) t now).dateAdded = s.dateAdded ∧
      (BookCardV1.handleStatusChange (some s) t now).dateAdded = s.dateAdded) ∧
    (∀ (t : Status) (now : Nat),
      (BookCardV2.handleStatusChange none t now).dateAdded = now ∧
      (BookCardV1.handleStatusChange none t now).dateAdded = now) := by
  constructor
  · intro s t now
    refine ⟨?_, ?_⟩
    · unfold BookCardV2.handleStatusChange
      split_ifs <;> simp
    · unfold BookCardV1.handleStatusChange
      split_ifs <;> simp
  · intro t now
    refine ⟨?_, ?_⟩
    · unfold BookCardV2.handleStatusChange
      split_ifs <;> simp
    · unfold BookCardV1.handleStatusChange
      split_ifs <;> simp

/-- C7: the `reading` transition is idempotent with respect to
`dateStarted`: an already-set `dateStarted` is left unchanged, and two
successive `reading` transitions yield the `dateStarted` of the first. -/
theorem C7_readingTransition_idempotent_dateStarted :
    (∀ (s : ReadingStatus) (now d : Nat), s.dateStarted = some d →
      (BookCardV2.handleStatusChange (some s) Status.reading now).dateStarted = some d) ∧
    (∀ (s : ReadingStatus) (n1 n2 : Nat),
      (BookCardV2.handleStatusChange
          (some (BookCardV2.handleStatusChange (some s) Status.reading n1))
          Status.reading n2).dateStarted =
        (BookCardV2.handleStatusChange (some s) Status.reading n1).dateStarted) := by
  constructor
  · intro s now d hd
    simp [BookCardV2.handleStatusChange, hd]
  · intro s n1 n2
    unfold BookCardV2.handleStatusChange
    cases hd : s.dateStarted <;> simp [hd]

/-- C7 witness: the first component of the theorem at a concrete status whose
`dateStarted` is 4, transitioned into `reading` at time 9. -/
theorem C7_readingTransition_idempotent_dateStarted_witness :
    (BookCardV2.handleStatusChange (some startedStatus) Status.reading 9).dateStarted =
      some 4 :=
  C7_readingTransition_idempotent_dateStarted.1 startedStatus 9 4 rfl

/-- C8: for every library and day, the heatmap assigns an intensity equal to
the maximum of the capped session buckets, 3 for a completion date, and 4
for a re-read-completion date (an absent day record displays as intensity
0); and in the concrete scenario of two same-day sessions of 10 and 20
minutes for two different books, the day has intensity 1, session count 2,
and a books list with the 2 distinct titles. -/
theorem C8_heatmap_intensity :
    (∀ (lib : List (Book × ReadingStatus)) (d : Nat),
      Heatmap.dayIntensity (Heatmap.heatmapData lib) d = Heatmap.specDayIntensity lib d) ∧
    jsGet (Heatmap.heatmapData scenarioLib) 0 =
      some { date := 0, intensity := 1, sessions := 2, books := ["Alpha", "Beta"] } ∧
    bookA.title ≠ bookB.title := by
  refine ⟨Heatmap.dayIntensity_heatmapData, ?_, ?_⟩ <;> decide

/-- C9: `handleStatusChange` in `src/src/pages/Index.tsx` is a silent no-op
when the identifier is absent from the library store: the store is returned
unchanged, and the handler has no error path at all. -/
theorem C9_statusChange_absentId_noop (lib : IndexPage.Library) (bookId : String)
    (st : ReadingStatus) (h : jsGet lib bookId = none) :
    IndexPage.handleStatusChange lib bookId st = lib := by
  unfold IndexPage.handleStatusChange
  rw [h]

/-- C9 witness: the theorem at a concrete one-entry store and an absent
identifier. -/
theorem C9_statusChange_absentId_noop_witness :
    IndexPage.handleStatusChange demoLib "zzz" (IndexPage.freshStatus 5) = demoLib :=
  C9_statusChange_absentId_noop demoLib "zzz" (IndexPage.freshStatus 5) (by decide)

/-- C10: `handleAddToLibrary` on an identifier already present overwrites
the entry with the given book and a fresh ReadingStatus whose lifecycle is
`reading`, whose `dateAdded` is the current time, and all of whose other
fields are absent — the prior entry's progress, sessions, dates, rating,
notes and tags are discarded. -/
theorem C10_addToLibrary_overwrites (lib : IndexPage.Library) (book : Book) (now : Nat)
    (e : LibEntry) (h : jsGet lib book.id = some e) :
    jsGet (IndexPage.handleAddToLibrary lib book now) book.id =
      some { book := book, status := IndexPage.freshStatus now } ∧
    (IndexPage.freshStatus now).status = Status.reading ∧
    (IndexPage.freshStatus now).dateAdded = now ∧
    (IndexPage.freshStatus now).dateStarted = none ∧
    (IndexPage.freshStatus now).dateCompleted = none ∧
    (IndexPage.freshStatus now).rating = none ∧
    (IndexPage.freshStatus now).currentPage = none ∧
    (IndexPage.freshStatus now).personalRating = none ∧
    (IndexPage.freshStatus now).notes = none ∧
    (IndexPage.freshStatus now).readingGoal = none ∧
    (IndexPage.freshStatus now).readingSessions = none ∧
    (IndexPage.freshStatus now).lastUpdated = none ∧
    (IndexPage.freshStatus now).tags = none ∧
    (IndexPage.freshStatus now).reReadDates = none :=
  ⟨jsGet_jsSet_self lib book.id _, rfl, rfl, rfl, rfl, rfl, rfl, rfl, rfl, rfl, rfl, rfl,
    rfl, rfl⟩

/-- C10 witness: the theorem at the concrete one-entry store, re-adding the
book already stored under key "a" at time 42. -/
theorem C10_addToLibrary_overwrites_witness :
    jsGet (IndexPage.handleAddToLibrary demoLib bookA 42) bookA.id =
      some { book := bookA, status := IndexPage.freshStatus 42 } ∧
    (IndexPage.freshStatus 42).status = Status.reading ∧
    (IndexPage.freshStatus 42).dateAdded = 42 ∧
    (IndexPage.freshStatus 42).dateStarted = none ∧
    (IndexPage.freshStatus 42).dateCompleted = none ∧
    (IndexPage.freshStatus 42).rating = none ∧
    (IndexPage.freshStatus 42).currentPage = none ∧
    (IndexPage.freshStatus 42).personalRating = none ∧
    (IndexPage.freshStatus 42).notes = none ∧
    (IndexPage.freshStatus 42).readingGoal = none ∧
    (IndexPage.freshStatus 42).readingSessions = none ∧
    (IndexPage.freshStatus 42).lastUpdated = none ∧
    (IndexPage.freshStatus 42).tags = none ∧
    (IndexPage.freshStatus 42).reReadDates = none :=
  C10_addToLibrary_overwrites demoLib bookA 42
    { book := bookA, status := IndexPage.freshStatus 0 } (by decide)
